import Mathlib

/-
Verification of the claims in spec.md against the repository source
`src/api.py` (a Flask proxy to the SERPRO Integra Contador API).

The source is shallowly embedded: JSON values are modelled by the inductive
type `Json`; Python exceptions by `PyResult`; the two outbound HTTP calls
(identity-provider authentication and the operation-endpoint forward) by an
oracle `World` that fixes their outcomes, together with an explicit trace of
attempted outbound calls (`Call`).  Python truthiness, `dict.get`,
`dict[key]` (KeyError), `str.split()` and f-string rendering are modelled by
the corresponding `Json` helper functions below.  Function and variable names
follow the Python source.
-/

namespace ApiPgdas

/-- JSON values, as produced by Flask request parsing and `jsonify`. -/
inductive Json where
  | null
  | bool (b : Bool)
  | num (n : Int)
  | str (s : String)
  | arr (elems : List Json)
  | obj (fields : List (String × Json))

/-- First-match association-list lookup, modelling lookup in a Python dict
whose literal keys are distinct. -/
def lookupField : List (String × Json) → String → Option Json
  | [], _ => none
  | (k, v) :: rest, key => if k = key then some v else lookupField rest key

/-- Python truthiness of a JSON value: `None`, `False`, `0`, `""`, `[]` and
an empty dict are falsy, everything else is truthy. -/
def Json.truthy : Json → Bool
  | .null => false
  | .bool b => b
  | .num n => n != 0
  | .str s => s != ""
  | .arr elems => !elems.isEmpty
  | .obj fields => !fields.isEmpty

/-- Python type name of a JSON value, used in exception messages. -/
def Json.typeName : Json → String
  | .null => "NoneType"
  | .bool _ => "bool"
  | .num _ => "int"
  | .str _ => "str"
  | .arr _ => "list"
  | .obj _ => "dict"

/-- Result of a Python expression: a value, or a raised exception carrying
`str(e)`. -/
inductive PyResult (α : Type) where
  | ok (val : α)
  | exn (msg : String)

/-- `d.get(k)` on a Python value: returns `None` for a missing key, raises
`AttributeError` when the receiver is not a dict. -/
def Json.pyGet : Json → String → PyResult Json
  | .obj fields, k => .ok ((lookupField fields k).getD .null)
  | j, _ => .exn ("\x27" ++ j.typeName ++ "\x27 object has no attribute \x27get\x27")

/-- `d[k]` on a Python value: raises `KeyError` (whose `str` is the quoted
key) for a missing key, `TypeError` when the receiver is not a dict. -/
def Json.pyIndex : Json → String → PyResult Json
  | .obj fields, k =>
    match lookupField fields k with
    | some v => .ok v
    | none => .exn ("\x27" ++ k ++ "\x27")
  | j, _ => .exn ("\x27" ++ j.typeName ++ "\x27 object is not subscriptable")

mutual

/-- Python `repr` of a JSON value (string escaping not modelled). -/
def Json.pyRepr : Json → String
  | .null => "None"
  | .bool b => if b then "True" else "False"
  | .num n => toString n
  | .str s => "\x27" ++ s ++ "\x27"
  | .arr elems => "[" ++ String.intercalate ", " (pyReprList elems) ++ "]"
  | .obj fields => "\x7b" ++ String.intercalate ", " (pyReprFields fields) ++ "\x7d"

/-- `repr` of each element of a Python list. -/
def pyReprList : List Json → List String
  | [] => []
  | x :: xs => Json.pyRepr x :: pyReprList xs

/-- `repr` of each `key: value` entry of a Python dict. -/
def pyReprFields : List (String × Json) → List String
  | [] => []
  | (k, v) :: fs => ("\x27" ++ k ++ "\x27: " ++ Json.pyRepr v) :: pyReprFields fs

end

/-- Python `str` of a JSON value, as used by f-string interpolation:
identical to `repr` except on strings, which render without quotes. -/
def Json.pyStr : Json → String
  | .str s => s
  | j => j.pyRepr

/-- f-string rendering of an `Optional[str]`. -/
def pyStrOpt : Option String → String
  | some s => s
  | none => "None"

/-- Truthiness of an `Optional[str]`: `None` and the empty string are falsy. -/
def optTruthy : Option String → Bool
  | none => false
  | some s => s != ""

/-- Helper for `pySplitWs`: walks the character list accumulating the
current (reversed) piece, emitting it at each whitespace run boundary. -/
def splitWsAux : List Char → List Char → List String
  | [], acc => if acc.isEmpty then [] else [String.mk acc.reverse]
  | c :: cs, acc =>
    if c.isWhitespace then
      (if acc.isEmpty then [] else [String.mk acc.reverse]) ++ splitWsAux cs []
    else splitWsAux cs (c :: acc)

/-- Python `str.split()` with no argument: split on whitespace runs,
discarding empty pieces. -/
def pySplitWs (s : String) : List String :=
  splitWsAux s.toList []

/-- Python `str.lower()` (ASCII case folding). -/
def pyLower (s : String) : String :=
  String.mk (s.toList.map Char.toLower)

/-- The fixed shared secret from `api.py` line 13. -/
def API_TOKEN : String :=
  "F0EHbyjo2eo3ZL9TDaimKZRR9Zl43epwBZKCgKARY2f8Dw0Z7eQDeshL3fE0FrPE"

/-- `validate_token` (api.py lines 15-32), as a function of the incoming
`Authorization` header (`none` = header absent).  Mirrors the Python code:
a missing or empty header, a header that does not split into exactly two
whitespace-separated pieces, a non-bearer scheme, and a wrong token are each
rejected with their own message. -/
def validate_token (auth_header : Option String) : Bool × Option String :=
  match auth_header with
  | none => (false, some "Authorization header is missing")
  | some h =>
    if h = "" then (false, some "Authorization header is missing")
    else
      match pySplitWs h with
      | [scheme, token] =>
        if pyLower scheme ≠ "bearer" then (false, some "Invalid authentication scheme")
        else if token ≠ API_TOKEN then (false, some "Invalid token")
        else (true, none)
      | _ => (false, some "Invalid authorization header format")

/-- The default configuration returned by `load_config` when `config.json`
is absent (api.py lines 40-45). -/
def defaultConfig : Json :=
  .obj [("api_key", .str ""), ("client_id", .str ""),
        ("client_secret", .str ""), ("cnpj_contratante", .str "")]

/-- `load_config` (api.py lines 34-45): returns the parsed contents of
`config.json`, or the all-empty default when the file is missing.  The
backing store is modelled as `Option Json` (`none` = `FileNotFoundError`). -/
def load_config (fs : Option Json) : Json :=
  fs.getD defaultConfig

/-- `save_config` (api.py lines 47-50): overwrites the backing store with
the given configuration value. -/
def save_config (config_data : Json) (_fs : Option Json) : Option Json :=
  some config_data

/-- An attempted outbound HTTP call, recorded in the trace. -/
inductive Call where
  | authCall
  | opCall (url : String) (headers : Json) (body : Json)

/-- Oracle outcome of one outbound HTTP POST: a raised transport
exception (timeout, connection failure, ...) carrying `str(e)`, or a
response with a status code and the result of `.json()` on its body. -/
inductive HttpOutcome where
  | exn (msg : String)
  | resp (status : Nat) (jsonBody : PyResult Json)

/-- The external world a single request runs against: the contents of
`config.json`, the outcomes of the authentication call and of the operation
call, and the measured elapsed time. -/
structure World where
  fsConfig : Option Json
  authOutcome : HttpOutcome
  opOutcome : HttpOutcome
  elapsed : Int

/-- The token pair returned by `get_auth_token` on success. -/
structure AuthTokens where
  access_token : Json
  jwt_token : Json

/-- `get_auth_token` (api.py lines 52-87): POSTs to the identity provider
and returns `(tokens, None)` on a 200 response carrying both
`access_token` and `jwt_token`, and `(None, message)` otherwise (non-200
status, transport exception, JSON parse failure, or missing key - the
broad `except` catches them all).  The call attempt is always recorded. -/
def get_auth_token (_client_id _client_secret : Json) (w : World) :
    (Option AuthTokens × Option String) × List Call :=
  match w.authOutcome with
  | .exn e => ((none, some e), [.authCall])
  | .resp status jsonBody =>
    if status ≠ 200 then
      ((none, some ("Authentication failed with status code: " ++ toString status)), [.authCall])
    else
      match jsonBody with
      | .exn e => ((none, some e), [.authCall])
      | .ok result =>
        match result.pyIndex "access_token" with
        | .exn e => ((none, some e), [.authCall])
        | .ok access_token =>
          match result.pyIndex "jwt_token" with
          | .exn e => ((none, some e), [.authCall])
          | .ok jwt_token => ((some ⟨access_token, jwt_token⟩, none), [.authCall])

/-- The request envelope `json_data` built in `make_api_request`
(api.py lines 94-113). -/
def json_data (cnpj_contratante cnpj_contribuinte id_sistema id_servico
    versao_sistema dados : Json) : Json :=
  .obj [
    ("contratante", .obj [("numero", cnpj_contratante), ("tipo", .num 2)]),
    ("autorPedidoDados", .obj [("numero", cnpj_contratante), ("tipo", .num 2)]),
    ("contribuinte", .obj [("numero", cnpj_contribuinte), ("tipo", .num 2)]),
    ("pedidoDados", .obj [
      ("idSistema", id_sistema),
      ("idServico", id_servico),
      ("versaoSistema", versao_sistema),
      ("dados", dados)])]

/-- The `url_map` dict of `make_api_request` (api.py lines 116-120). -/
def url_map : List (String × String) :=
  [("consultar", "https://gateway.apiserpro.serpro.gov.br/integra-contador/v1/Consultar"),
   ("emitir", "https://gateway.apiserpro.serpro.gov.br/integra-contador/v1/Emitir"),
   ("declarar", "https://gateway.apiserpro.serpro.gov.br/integra-contador/v1/Declarar")]

/-- First-match lookup in a string association list. -/
def lookupStr : List (String × String) → String → Option String
  | [], _ => none
  | (k, v) :: rest, key => if k = key then some v else lookupStr rest key

/-- `url_map.get(tipo)` (api.py line 122): a dict miss for hashable
non-keys (including `None`, booleans and numbers), a raised `TypeError`
for unhashable values. -/
def tipoUrl : Json → PyResult (Option String)
  | .str s => .ok (lookupStr url_map s)
  | .arr _ => .exn "unhashable type: \x27list\x27"
  | .obj _ => .exn "unhashable type: \x27dict\x27"
  | _ => .ok none

/-- `make_api_request` (api.py lines 89-135): re-loads the configuration,
builds the envelope, resolves the endpoint from `tipo`, and attempts the
forward POST.  Returns the Python pair `(response, error)` where the
response is modelled as `(status_code, result of .json())`; a
`RequestException` yields `(None, str(e))`; a missing `cnpj_contratante`
key or an unhashable `tipo` raises out of the function. -/
def make_api_request (tipo cnpj_contribuinte id_sistema id_servico
    versao_sistema dados headers : Json) (w : World) :
    PyResult (Option (Nat × PyResult Json) × Option String) × List Call :=
  match (load_config w.fsConfig).pyIndex "cnpj_contratante" with
  | .exn m => (.exn m, [])
  | .ok cnpj_contratante =>
    let body := json_data cnpj_contratante cnpj_contribuinte id_sistema
      id_servico versao_sistema dados
    match tipoUrl tipo with
    | .exn m => (.exn m, [])
    | .ok none => (.ok (none, some ("Invalid operation type: " ++ tipo.pyStr)), [])
    | .ok (some url) =>
      match w.opOutcome with
      | .exn e => (.ok (none, some e), [.opCall url headers body])
      | .resp status jsonBody => (.ok (some (status, jsonBody), none), [.opCall url headers body])

/-- The list of missing-parameter names built in `api_handler`
(api.py lines 163-170), judged by Python truthiness, in source order. -/
def missing_params (tipo cnpj_contribuinte id_sistema id_servico
    versao_sistema dados : Json) : List String :=
  (if !tipo.truthy then ["tipo"] else [])
  ++ (if !cnpj_contribuinte.truthy then ["cnpj"] else [])
  ++ (if !id_sistema.truthy then ["idSistema"] else [])
  ++ (if !id_servico.truthy then ["idServico"] else [])
  ++ (if !versao_sistema.truthy then ["versaoSistema"] else [])
  ++ (if !dados.truthy then ["dados"] else [])

/-- The headers dict built in `api_handler` (api.py lines 190-194) for the
forward call. -/
def request_headers (auth : AuthTokens) : Json :=
  .obj [
    ("Authorization", .str ("Bearer " ++ auth.access_token.pyStr)),
    ("Content-Type", .str "application/json"),
    ("jwt_token", auth.jwt_token)]

/-- An HTTP response produced by the Flask handler: status code and JSON
body. -/
structure HttpResponse where
  status : Nat
  body : Json

/-- The body of `api_handler`'s `try` block (api.py lines 142-213), before
the surrounding `except`.  `request_json` is the parsed request body
(`request.json`), `auth_header` the `Authorization` header. -/
def api_handler_body (auth_header : Option String) (request_json : Json)
    (w : World) : PyResult HttpResponse × List Call :=
  match validate_token auth_header with
  | (false, error) =>
    (.ok ⟨401, .obj [("error", .str ("Authentication failed: " ++ pyStrOpt error))]⟩, [])
  | (true, _) =>
    if !request_json.truthy then
      (.ok ⟨400, .obj [("error", .str "No data provided")]⟩, [])
    else
      match request_json.pyGet "tipo" with
      | .exn m => (.exn m, [])
      | .ok tipo =>
      match request_json.pyGet "cnpj" with
      | .exn m => (.exn m, [])
      | .ok cnpj_contribuinte =>
      match request_json.pyGet "idSistema" with
      | .exn m => (.exn m, [])
      | .ok id_sistema =>
      match request_json.pyGet "idServico" with
      | .exn m => (.exn m, [])
      | .ok id_servico =>
      match request_json.pyGet "versaoSistema" with
      | .exn m => (.exn m, [])
      | .ok versao_sistema =>
      match request_json.pyGet "dados" with
      | .exn m => (.exn m, [])
      | .ok dados =>
      if !(tipo.truthy && cnpj_contribuinte.truthy && id_sistema.truthy
            && id_servico.truthy && versao_sistema.truthy && dados.truthy) then
        (.ok ⟨400, .obj [("error", .str ("Missing required parameters: "
          ++ String.intercalate ", " (missing_params tipo cnpj_contribuinte
               id_sistema id_servico versao_sistema dados)))]⟩, [])
      else
        match (load_config w.fsConfig).pyIndex "client_id" with
        | .exn m => (.exn m, [])
        | .ok client_id =>
        match (load_config w.fsConfig).pyIndex "client_secret" with
        | .exn m => (.exn m, [])
        | .ok client_secret =>
        match get_auth_token client_id client_secret w with
        | ((auth_result, error), tr1) =>
          if optTruthy error then
            (.ok ⟨500, .obj [("error", .str ("Authentication failed: " ++ pyStrOpt error))]⟩, tr1)
          else
            match auth_result with
            | none => (.exn "\x27NoneType\x27 object is not subscriptable", tr1)
            | some auth =>
              match make_api_request tipo cnpj_contribuinte id_sistema
                  id_servico versao_sistema dados (request_headers auth) w with
              | (.exn m, tr2) => (.exn m, tr1 ++ tr2)
              | (.ok (response, error2), tr2) =>
                if optTruthy error2 then
                  (.ok ⟨400, .obj [("error", .str (pyStrOpt error2))]⟩, tr1 ++ tr2)
                else
                  match response with
                  | none =>
                    (.ok ⟨500, .obj [("error", .str "Failed to connect to the API")]⟩, tr1 ++ tr2)
                  | some (_status, jsonBody) =>
                    match jsonBody with
                    | .exn m => (.exn m, tr1 ++ tr2)
                    | .ok data =>
                      (.ok ⟨200, .obj [("success", .bool true), ("data", data),
                        ("execution_time", .num w.elapsed)]⟩, tr1 ++ tr2)

/-- `api_handler` (api.py lines 137-223): the `try` body above, with the
surrounding `except` converting any raised exception into a 500 response
carrying `success=False`, the exception text and the execution time. -/
def api_handler (auth_header : Option String) (request_json : Json)
    (w : World) : HttpResponse × List Call :=
  match api_handler_body auth_header request_json w with
  | (.ok r, tr) => (r, tr)
  | (.exn m, tr) =>
    (⟨500, .obj [("success", .bool false), ("error", .str m),
      ("execution_time", .num w.elapsed)]⟩, tr)

/-- Field lookup in a response body (for stating claims about individual
response fields). -/
def responseField (r : HttpResponse) (k : String) : Option Json :=
  match r.body with
  | .obj fields => lookupField fields k
  | _ => none

/-! Concrete fixtures used by witnesses and counterexamples. -/

/-- A well-formed `Authorization` header carrying the shared secret. -/
def goodAuthHeader : Option String := some ("Bearer " ++ API_TOKEN)

/-- A fully-populated request body with operation kind `consultar`. -/
def goodBody : Json :=
  .obj [("tipo", .str "consultar"), ("cnpj", .str "12345678000199"),
        ("idSistema", .str "PGDASD"), ("idServico", .str "TRANSDECLARACAO11"),
        ("versaoSistema", .str "1.0"), ("dados", .str "d")]

/-- An identity-provider 200 response body carrying both tokens. -/
def okAuthBody : Json :=
  .obj [("access_token", .str "tok"), ("jwt_token", .str "jwt")]

/-- A world with no config file, successful authentication, and an upstream
200 response. -/
def baseWorld : World :=
  { fsConfig := none,
    authOutcome := .resp 200 (.ok okAuthBody),
    opOutcome := .resp 200 (.ok (.obj [("foo", .str "bar")])),
    elapsed := 0 }

/-- A fully-populated request body with operation kind `emitir`. -/
def emitirBody : Json :=
  .obj [("tipo", .str "emitir"), ("cnpj", .str "12345678000199"),
        ("idSistema", .str "PGDASD"), ("idServico", .str "TRANSDECLARACAO11"),
        ("versaoSistema", .str "1.0"), ("dados", .str "d")]

/-- A request body missing `tipo`, `idSistema`, `idServico` and
`versaoSistema`. -/
def c5Body : Json :=
  .obj [("cnpj", .str "1"), ("dados", .str "x")]

/-- A request body in which `dados` is present but falsy (the integer 0). -/
def c9Body : Json :=
  .obj [("tipo", .str "consultar"), ("cnpj", .str "1"), ("idSistema", .str "S"),
        ("idServico", .str "V"), ("versaoSistema", .str "2"), ("dados", .num 0)]

/-- The upstream error payload from the spec example. -/
def mensagensBody : Json :=
  .obj [("mensagens", .arr [.obj [("texto", .str "CNPJ inválido")]])]

/-- A fully-populated request body with the unknown operation kind
`cancelar`. -/
def c6Body : Json :=
  .obj [("tipo", .str "cancelar"), ("cnpj", .str "12345678000199"),
        ("idSistema", .str "PGDASD"), ("idServico", .str "X"),
        ("versaoSistema", .str "1.0"), ("dados", .str "d")]

/-- A world in which the identity provider answers 401. -/
def authFailWorld : World :=
  { baseWorld with authOutcome := .resp 401 (.ok .null) }

/-- A world in which the forward call raises a transport exception. -/
def transportWorld : World :=
  { baseWorld with opOutcome := .exn "Connection refused" }

/-- A world in which the operation endpoint answers 400 with a `mensagens`
payload. -/
def upstream400World : World :=
  { baseWorld with opOutcome := .resp 400 (.ok mensagensBody) }

/-- Bundle of hypotheses describing a request that passes the token check
and the required-field validation, against a configuration carrying the
client credentials. -/
structure ValidRun (auth_header : Option String) (body : Json) (w : World)
    (tipo cnpj_contribuinte id_sistema id_servico versao_sistema dados
     cid cs : Json) : Prop where
  valid_token : validate_token auth_header = (true, none)
  body_truthy : body.truthy = true
  get_tipo : body.pyGet "tipo" = .ok tipo
  get_cnpj : body.pyGet "cnpj" = .ok cnpj_contribuinte
  get_id_sistema : body.pyGet "idSistema" = .ok id_sistema
  get_id_servico : body.pyGet "idServico" = .ok id_servico
  get_versao : body.pyGet "versaoSistema" = .ok versao_sistema
  get_dados : body.pyGet "dados" = .ok dados
  all_fields : (tipo.truthy && cnpj_contribuinte.truthy && id_sistema.truthy
    && id_servico.truthy && versao_sistema.truthy && dados.truthy) = true
  get_client_id : (load_config w.fsConfig).pyIndex "client_id" = .ok cid
  get_client_secret : (load_config w.fsConfig).pyIndex "client_secret" = .ok cs

/-- Bundle of hypotheses describing a successful identity-provider
response carrying both tokens. -/
structure AuthOk (w : World) (ab atk jtk : Json) : Prop where
  outcome : w.authOutcome = .resp 200 (.ok ab)
  access : ab.pyIndex "access_token" = .ok atk
  jwt : ab.pyIndex "jwt_token" = .ok jtk

/-! Helper lemmas shared by the claim theorems. -/

/-- Appending to a nonempty string yields a nonempty string. -/
theorem str_append_ne_empty (a b : String) (h : a ≠ "") : a ++ b ≠ "" := by
  cases a with
  | mk da =>
    cases b with
    | mk db =>
      intro hc
      apply h
      have hd : da ++ db = ([] : List Char) := congrArg String.data hc
      have hda : da = [] := (List.append_eq_nil.mp hd).1
      subst hda
      rfl

/-- A nonempty optional string is Python-truthy. -/
theorem optTruthy_some_of_ne (m : String) (h : m ≠ "") : optTruthy (some m) = true := by
  simp [optTruthy, h]

/-- `get_auth_token` always records exactly one authentication attempt. -/
theorem get_auth_token_trace (cid cs : Json) (w : World) :
    (get_auth_token cid cs w).2 = [Call.authCall] := by
  unfold get_auth_token
  rcases w.authOutcome with e | ⟨s, jb⟩
  · rfl
  · by_cases hs : s = 200
    · subst hs
      simp only [ne_eq, not_true_eq_false, if_false, reduceIte]
      rcases jb with r | m
      · rcases hx : r.pyIndex "access_token" with v | m2
        · rcases hy : r.pyIndex "jwt_token" with v2 | m3 <;> simp [hx, hy]
        · simp [hx]
      · rfl
    · simp [hs]

/-- On a non-200 identity-provider response, `get_auth_token` reports the
status-code failure message. -/
theorem get_auth_token_non200 (cid cs : Json) (w : World) (s : Nat)
    (b : PyResult Json) (h : w.authOutcome = .resp s b) (hs : s ≠ 200) :
    get_auth_token cid cs w
      = ((none, some ("Authentication failed with status code: " ++ toString s)), [.authCall]) := by
  simp [get_auth_token, h, hs]

/-- On a transport exception, `get_auth_token` reports the exception text. -/
theorem get_auth_token_exn (cid cs : Json) (w : World) (e : String)
    (h : w.authOutcome = .exn e) :
    get_auth_token cid cs w = ((none, some e), [.authCall]) := by
  simp [get_auth_token, h]

/-- On a 200 response carrying both tokens, `get_auth_token` returns them. -/
theorem get_auth_token_ok (cid cs : Json) (w : World) (ab atk jtk : Json)
    (h : AuthOk w ab atk jtk) :
    get_auth_token cid cs w = ((some ⟨atk, jtk⟩, none), [.authCall]) := by
  obtain ⟨ho, ha, hj⟩ := h
  simp [get_auth_token, ho, ha, hj]

/-- On a 200 identity-provider response whose body fails to parse as JSON,
`get_auth_token` reports the decode-error text. -/
theorem get_auth_token_badjson (cid cs : Json) (w : World) (e : String)
    (h : w.authOutcome = .resp 200 (.exn e)) :
    get_auth_token cid cs w = ((none, some e), [.authCall]) := by
  simp [get_auth_token, h]

/-- On a 200 identity-provider response whose body lacks `access_token`,
`get_auth_token` reports the subscript exception. -/
theorem get_auth_token_missing_access (cid cs : Json) (w : World)
    (ab : Json) (e : String) (h : w.authOutcome = .resp 200 (.ok ab))
    (hx : ab.pyIndex "access_token" = .exn e) :
    get_auth_token cid cs w = ((none, some e), [.authCall]) := by
  simp [get_auth_token, h, hx]

/-- On a 200 identity-provider response whose body carries `access_token`
but lacks `jwt_token`, `get_auth_token` reports the subscript exception. -/
theorem get_auth_token_missing_jwt (cid cs : Json) (w : World)
    (ab atk : Json) (e : String) (h : w.authOutcome = .resp 200 (.ok ab))
    (hx : ab.pyIndex "access_token" = .ok atk)
    (hy : ab.pyIndex "jwt_token" = .exn e) :
    get_auth_token cid cs w = ((none, some e), [.authCall]) := by
  simp [get_auth_token, h, hx, hy]

/-- Every exception message produced by `Json.pyIndex` is nonempty (it
starts with a quote character). -/
theorem pyIndex_exn_ne_empty (j : Json) (k m : String)
    (h : j.pyIndex k = .exn m) : m ≠ "" := by
  have hgen : ∀ (x y : String), ("\x27" ++ x) ++ y ≠ "" := fun x y =>
    str_append_ne_empty _ _ (str_append_ne_empty "\x27" x (by decide))
  cases j with
  | obj fields =>
    have h2 := h
    simp only [Json.pyIndex] at h2
    rcases hl : lookupField fields k with _ | v <;> rw [hl] at h2
    · injection h2 with h3
      exact h3 ▸ hgen _ _
    · injection h2
  | null => injection h with h2; exact h2 ▸ hgen _ _
  | bool b => injection h with h2; exact h2 ▸ hgen _ _
  | num n => injection h with h2; exact h2 ▸ hgen _ _
  | str s2 => injection h with h2; exact h2 ▸ hgen _ _
  | arr xs => injection h with h2; exact h2 ▸ hgen _ _

/-- When the token check rejects the header, the handler answers 401 with
the prefixed message and makes no outbound call, whatever the body and
world. -/
theorem hl_token_fail (auth_header : Option String) (body : Json) (w : World)
    (m : String) (h : validate_token auth_header = (false, some m)) :
    api_handler auth_header body w
      = (⟨401, .obj [("error", .str ("Authentication failed: " ++ m))]⟩, []) := by
  simp [api_handler, api_handler_body, h, pyStrOpt]

/-- A falsy request body is rejected with "No data provided". -/
theorem hl_no_data (auth_header : Option String) (body : Json) (w : World)
    (hvalid : validate_token auth_header = (true, none))
    (hbf : body.truthy = false) :
    api_handler auth_header body w
      = (⟨400, .obj [("error", .str "No data provided")]⟩, []) := by
  simp [api_handler, api_handler_body, hvalid, hbf]

/-- A truthy body failing the all-fields truthiness check is rejected with
the missing-parameters message, with no outbound call. -/
theorem hl_missing (auth_header : Option String) (body : Json) (w : World)
    (tipo cnpj_contribuinte id_sistema id_servico versao_sistema dados : Json)
    (hvalid : validate_token auth_header = (true, none))
    (hbt : body.truthy = true)
    (h1 : body.pyGet "tipo" = .ok tipo)
    (h2 : body.pyGet "cnpj" = .ok cnpj_contribuinte)
    (h3 : body.pyGet "idSistema" = .ok id_sistema)
    (h4 : body.pyGet "idServico" = .ok id_servico)
    (h5 : body.pyGet "versaoSistema" = .ok versao_sistema)
    (h6 : body.pyGet "dados" = .ok dados)
    (hall : (tipo.truthy && cnpj_contribuinte.truthy && id_sistema.truthy
      && id_servico.truthy && versao_sistema.truthy && dados.truthy) = false) :
    api_handler auth_header body w
      = (⟨400, .obj [("error", .str ("Missing required parameters: "
          ++ String.intercalate ", " (missing_params tipo cnpj_contribuinte
               id_sistema id_servico versao_sistema dados)))]⟩, []) := by
  simp [api_handler, api_handler_body, hvalid, hbt, h1, h2, h3, h4, h5, h6, hall]

/-- When authentication reports a nonempty error, the handler answers 500
with the prefixed message and never calls the operation endpoint. -/
theorem hl_auth_fail (auth_header : Option String) (body : Json) (w : World)
    (tipo cnpj_contribuinte id_sistema id_servico versao_sistema dados cid cs : Json)
    (e : String)
    (h : ValidRun auth_header body w tipo cnpj_contribuinte id_sistema
      id_servico versao_sistema dados cid cs)
    (hga : get_auth_token cid cs w = ((none, some e), [.authCall]))
    (he : e ≠ "") :
    api_handler auth_header body w
      = (⟨500, .obj [("error", .str ("Authentication failed: " ++ e))]⟩, [.authCall]) := by
  obtain ⟨hv, hbt, h1, h2, h3, h4, h5, h6, hall, hcid, hcs⟩ := h
  simp [api_handler, api_handler_body, hv, hbt, h1, h2, h3, h4, h5, h6, hall,
    hcid, hcs, hga, optTruthy_some_of_ne e he, pyStrOpt]

/-- With valid input, successful authentication and a mapped operation
kind, a completed upstream response with parseable JSON body yields the
success envelope, whatever the upstream status code. -/
theorem hl_upstream_ok (auth_header : Option String) (body : Json) (w : World)
    (tipo cnpj_contribuinte id_sistema id_servico versao_sistema dados
     cid cs ccontr atk jtk d : Json) (url : String) (s : Nat)
    (h : ValidRun auth_header body w tipo cnpj_contribuinte id_sistema
      id_servico versao_sistema dados cid cs)
    (hga : get_auth_token cid cs w = ((some ⟨atk, jtk⟩, none), [.authCall]))
    (hccontr : (load_config w.fsConfig).pyIndex "cnpj_contratante" = .ok ccontr)
    (hurl : tipoUrl tipo = .ok (some url))
    (hop : w.opOutcome = .resp s (.ok d)) :
    api_handler auth_header body w
      = (⟨200, .obj [("success", .bool true), ("data", d),
           ("execution_time", .num w.elapsed)]⟩,
         [.authCall, .opCall url (request_headers ⟨atk, jtk⟩)
           (json_data ccontr cnpj_contribuinte id_sistema id_servico
             versao_sistema dados)]) := by
  obtain ⟨hv, hbt, h1, h2, h3, h4, h5, h6, hall, hcid, hcs⟩ := h
  simp [api_handler, api_handler_body, make_api_request, hv, hbt, h1, h2, h3,
    h4, h5, h6, hall, hcid, hcs, hga, hccontr, hurl, hop, optTruthy]

/-- With valid input, successful authentication and a mapped operation
kind, a transport exception with nonempty text yields HTTP 400 carrying
that text. -/
theorem hl_route_exn (auth_header : Option String) (body : Json) (w : World)
    (tipo cnpj_contribuinte id_sistema id_servico versao_sistema dados
     cid cs ccontr atk jtk : Json) (url m : String)
    (h : ValidRun auth_header body w tipo cnpj_contribuinte id_sistema
      id_servico versao_sistema dados cid cs)
    (hga : get_auth_token cid cs w = ((some ⟨atk, jtk⟩, none), [.authCall]))
    (hccontr : (load_config w.fsConfig).pyIndex "cnpj_contratante" = .ok ccontr)
    (hurl : tipoUrl tipo = .ok (some url))
    (hop : w.opOutcome = .exn m)
    (hm : m ≠ "") :
    api_handler auth_header body w
      = (⟨400, .obj [("error", .str m)]⟩,
         [.authCall, .opCall url (request_headers ⟨atk, jtk⟩)
           (json_data ccontr cnpj_contribuinte id_sistema id_servico
             versao_sistema dados)]) := by
  obtain ⟨hv, hbt, h1, h2, h3, h4, h5, h6, hall, hcid, hcs⟩ := h
  simp [api_handler, api_handler_body, make_api_request, hv, hbt, h1, h2, h3,
    h4, h5, h6, hall, hcid, hcs, hga, hccontr, hurl, hop, optTruthy, hm,
    pyStrOpt]

/-- With valid input, successful authentication and a mapped operation
kind, a transport exception with empty text falls through to the dead
"Failed to connect to the API" branch. -/
theorem hl_route_exn_empty (auth_header : Option String) (body : Json) (w : World)
    (tipo cnpj_contribuinte id_sistema id_servico versao_sistema dados
     cid cs ccontr atk jtk : Json) (url : String)
    (h : ValidRun auth_header body w tipo cnpj_contribuinte id_sistema
      id_servico versao_sistema dados cid cs)
    (hga : get_auth_token cid cs w = ((some ⟨atk, jtk⟩, none), [.authCall]))
    (hccontr : (load_config w.fsConfig).pyIndex "cnpj_contratante" = .ok ccontr)
    (hurl : tipoUrl tipo = .ok (some url))
    (hop : w.opOutcome = .exn "") :
    api_handler auth_header body w
      = (⟨500, .obj [("error", .str "Failed to connect to the API")]⟩,
         [.authCall, .opCall url (request_headers ⟨atk, jtk⟩)
           (json_data ccontr cnpj_contribuinte id_sistema id_servico
             versao_sistema dados)]) := by
  obtain ⟨hv, hbt, h1, h2, h3, h4, h5, h6, hall, hcid, hcs⟩ := h
  simp [api_handler, api_handler_body, make_api_request, hv, hbt, h1, h2, h3,
    h4, h5, h6, hall, hcid, hcs, hga, hccontr, hurl, hop, optTruthy]

/-- With valid input, successful authentication and a mapped operation
kind, an upstream response whose body fails to parse as JSON raises, and
the surrounding `except` produces the 500 fault envelope. -/
theorem hl_upstream_badjson (auth_header : Option String) (body : Json) (w : World)
    (tipo cnpj_contribuinte id_sistema id_servico versao_sistema dados
     cid cs ccontr atk jtk : Json) (url m : String) (s : Nat)
    (h : ValidRun auth_header body w tipo cnpj_contribuinte id_sistema
      id_servico versao_sistema dados cid cs)
    (hga : get_auth_token cid cs w = ((some ⟨atk, jtk⟩, none), [.authCall]))
    (hccontr : (load_config w.fsConfig).pyIndex "cnpj_contratante" = .ok ccontr)
    (hurl : tipoUrl tipo = .ok (some url))
    (hop : w.opOutcome = .resp s (.exn m)) :
    api_handler auth_header body w
      = (⟨500, .obj [("success", .bool false), ("error", .str m),
           ("execution_time", .num w.elapsed)]⟩,
         [.authCall, .opCall url (request_headers ⟨atk, jtk⟩)
           (json_data ccontr cnpj_contribuinte id_sistema id_servico
             versao_sistema dados)]) := by
  obtain ⟨hv, hbt, h1, h2, h3, h4, h5, h6, hall, hcid, hcs⟩ := h
  simp [api_handler, api_handler_body, make_api_request, hv, hbt, h1, h2, h3,
    h4, h5, h6, hall, hcid, hcs, hga, hccontr, hurl, hop, optTruthy]

/-- With valid input and successful authentication, an unmapped operation
kind is answered 400 with the invalid-operation message, and the
operation endpoint is never called. -/
theorem hl_invalid_op (auth_header : Option String) (body : Json) (w : World)
    (tipo cnpj_contribuinte id_sistema id_servico versao_sistema dados
     cid cs ccontr atk jtk : Json)
    (h : ValidRun auth_header body w tipo cnpj_contribuinte id_sistema
      id_servico versao_sistema dados cid cs)
    (hga : get_auth_token cid cs w = ((some ⟨atk, jtk⟩, none), [.authCall]))
    (hccontr : (load_config w.fsConfig).pyIndex "cnpj_contratante" = .ok ccontr)
    (hurl0 : tipoUrl tipo = .ok none) :
    api_handler auth_header body w
      = (⟨400, .obj [("error", .str ("Invalid operation type: " ++ tipo.pyStr))]⟩,
         [.authCall]) := by
  obtain ⟨hv, hbt, h1, h2, h3, h4, h5, h6, hall, hcid, hcs⟩ := h
  have hne : "Invalid operation type: " ++ tipo.pyStr ≠ "" :=
    str_append_ne_empty "Invalid operation type: " tipo.pyStr (by decide)
  simp [api_handler, api_handler_body, make_api_request, hv, hbt, h1, h2, h3,
    h4, h5, h6, hall, hcid, hcs, hga, hccontr, hurl0, optTruthy, hne, pyStrOpt]

/-! Claim theorems. -/

/-- C8: for every configuration value, `save_config` followed by
`load_config` returns a structure equal to the saved one (round trip
through the backing store). -/
theorem c8_config_roundtrip (config_data : Json) (fs : Option Json) :
    load_config (save_config config_data fs) = config_data := rfl

/-- C10: the shared-secret bearer-token check runs before any other
processing: whenever `validate_token` rejects the `Authorization` header
(absent, malformed, non-bearer scheme, or wrong token), the handler
answers 401 with an error prefixed "Authentication failed: ",
independently of the request body and of the outside world, and neither
the identity-provider call nor the operation-endpoint call occurs (the
outbound trace is empty). -/
theorem c10_token_gate (auth_header : Option String) (request_json : Json)
    (w : World) (m : String)
    (h : validate_token auth_header = (false, some m)) :
    api_handler auth_header request_json w
      = (⟨401, .obj [("error", .str ("Authentication failed: " ++ m))]⟩, []) :=
  hl_token_fail auth_header request_json w m h

/-- Witness for C10 at a concrete input: a request with no Authorization
header is rejected with 401 and no outbound call. -/
theorem c10_witness :
    validate_token none = (false, some "Authorization header is missing")
    ∧ api_handler none goodBody baseWorld
        = (⟨401, .obj [("error",
            .str "Authentication failed: Authorization header is missing")]⟩, []) :=
  ⟨rfl, c10_token_gate none goodBody baseWorld "Authorization header is missing" rfl⟩

/-- C9: required-field validation decides presence by Python truthiness:
a request whose body contains a required field with a falsy value is
rejected with status 400, that field's external name is listed among the
missing parameters, and no outbound call occurs. -/
theorem c9_truthiness_validation (auth_header : Option String) (body : Json)
    (w : World)
    (tipo cnpj_contribuinte id_sistema id_servico versao_sistema dados v : Json)
    (f : String)
    (hvalid : validate_token auth_header = (true, none))
    (htipo : body.pyGet "tipo" = .ok tipo)
    (hcnpj : body.pyGet "cnpj" = .ok cnpj_contribuinte)
    (hsis : body.pyGet "idSistema" = .ok id_sistema)
    (hserv : body.pyGet "idServico" = .ok id_servico)
    (hver : body.pyGet "versaoSistema" = .ok versao_sistema)
    (hdados : body.pyGet "dados" = .ok dados)
    (hmem : (f, v) ∈ [("tipo", tipo), ("cnpj", cnpj_contribuinte),
      ("idSistema", id_sistema), ("idServico", id_servico),
      ("versaoSistema", versao_sistema), ("dados", dados)])
    (hpresent : ∃ fields, body = Json.obj fields ∧ lookupField fields f = some v)
    (hfalsy : v.truthy = false) :
    api_handler auth_header body w
      = (⟨400, .obj [("error", .str ("Missing required parameters: "
          ++ String.intercalate ", " (missing_params tipo cnpj_contribuinte
               id_sistema id_servico versao_sistema dados)))]⟩, [])
    ∧ f ∈ missing_params tipo cnpj_contribuinte id_sistema id_servico
        versao_sistema dados := by
  obtain ⟨fields, rfl, hlk⟩ := hpresent
  have hbt : (Json.obj fields).truthy = true := by
    cases fields with
    | nil => simp [lookupField] at hlk
    | cons a l => simp [Json.truthy]
  simp only [List.mem_cons, List.not_mem_nil, or_false] at hmem
  rcases hmem with h0 | h0 | h0 | h0 | h0 | h0 <;>
    (injection h0 with hf hv; subst hf; subst hv) <;>
    exact ⟨hl_missing _ _ _ _ _ _ _ _ _ hvalid hbt htipo hcnpj hsis hserv hver
      hdados (by simp [hfalsy]), by simp [missing_params, hfalsy]⟩

/-- Witness for C9 at a concrete input: a body carrying `dados = 0` (all
other fields present and truthy) is rejected with 400 listing `dados`. -/
theorem c9_witness :
    (Json.num 0).truthy = false
    ∧ api_handler goodAuthHeader c9Body baseWorld
        = (⟨400, .obj [("error", .str "Missing required parameters: dados")]⟩, [])
    ∧ "dados" ∈ missing_params (.str "consultar") (.str "1") (.str "S")
        (.str "V") (.str "2") (.num 0) := by
  have h := c9_truthiness_validation goodAuthHeader c9Body baseWorld
    (.str "consultar") (.str "1") (.str "S") (.str "V") (.str "2") (.num 0)
    (.num 0) "dados" rfl rfl rfl rfl rfl rfl rfl
    (.tail _ (.tail _ (.tail _ (.tail _ (.tail _ (.head _)))))) ⟨_, rfl, rfl⟩ rfl
  exact ⟨rfl, h.1, h.2⟩

/-- C5 counterexample: a request whose body is the empty JSON object is
missing every required field, yet the answer is "No data provided" - not
a message listing the missing field names as the claim requires. -/
theorem c5_counterexample :
    api_handler goodAuthHeader (Json.obj []) baseWorld
      = (⟨400, .obj [("error", .str "No data provided")]⟩, [])
    ∧ "No data provided"
        ≠ "Missing required parameters: tipo, cnpj, idSistema, idServico, versaoSistema, dados" :=
  ⟨rfl, by decide⟩

/-- C5 (amended): for a request passing the token check, a falsy body is
answered 400 with "No data provided"; a truthy body failing the
required-field check is answered 400 with a message listing exactly the
fields whose values are absent or falsy (by Python truthiness), in the
fixed order tipo, cnpj, idSistema, idServico, versaoSistema, dados; in
both cases no outbound call occurs. -/
theorem c5_amended_validation (auth_header : Option String) (body : Json)
    (w : World)
    (hvalid : validate_token auth_header = (true, none)) :
    (body.truthy = false →
      api_handler auth_header body w
        = (⟨400, .obj [("error", .str "No data provided")]⟩, []))
    ∧ (∀ tipo cnpj_contribuinte id_sistema id_servico versao_sistema dados : Json,
        body.pyGet "tipo" = .ok tipo →
        body.pyGet "cnpj" = .ok cnpj_contribuinte →
        body.pyGet "idSistema" = .ok id_sistema →
        body.pyGet "idServico" = .ok id_servico →
        body.pyGet "versaoSistema" = .ok versao_sistema →
        body.pyGet "dados" = .ok dados →
        body.truthy = true →
        (tipo.truthy && cnpj_contribuinte.truthy && id_sistema.truthy
          && id_servico.truthy && versao_sistema.truthy && dados.truthy) = false →
        api_handler auth_header body w
          = (⟨400, .obj [("error", .str ("Missing required parameters: "
              ++ String.intercalate ", " (missing_params tipo cnpj_contribuinte
                   id_sistema id_servico versao_sistema dados)))]⟩, [])) := by
  refine ⟨fun hbf => hl_no_data _ _ _ hvalid hbf, ?_⟩
  intro tipo cnpj_contribuinte id_sistema id_servico versao_sistema dados
    h1 h2 h3 h4 h5 h6 hbt hall
  exact hl_missing _ _ _ _ _ _ _ _ _ hvalid hbt h1 h2 h3 h4 h5 h6 hall

/-- Witness for the amended C5 at a concrete input: a body carrying only
`cnpj` and `dados` is answered 400 listing the four absent fields. -/
theorem c5_amended_witness :
    validate_token goodAuthHeader = (true, none)
    ∧ api_handler goodAuthHeader c5Body baseWorld
        = (⟨400, .obj [("error",
            .str "Missing required parameters: tipo, idSistema, idServico, versaoSistema")]⟩, []) :=
  ⟨rfl, (c5_amended_validation goodAuthHeader c5Body baseWorld rfl).2
    _ _ _ _ _ _ rfl rfl rfl rfl rfl rfl rfl rfl⟩

/-- C4 counterexample: when the identity provider answers 401, the final
response is HTTP 500 with the prefixed error text, but its body carries
no `success` field at all - the claim's "success=false" is absent. -/
theorem c4_counterexample :
    api_handler goodAuthHeader goodBody authFailWorld
      = (⟨500, .obj [("error",
          .str "Authentication failed: Authentication failed with status code: 401")]⟩,
         [.authCall])
    ∧ responseField (api_handler goodAuthHeader goodBody authFailWorld).1 "success" = none :=
  ⟨rfl, rfl⟩

/-- C4 (amended): for a validated request, any authentication failure
(non-200 identity-provider status, or a transport exception with nonempty
text) is answered HTTP 500 with error "Authentication failed: " followed
by the cause, the operation endpoint is never called (the trace holds
only the authentication attempt), and the body carries only the error
field (no success flag). -/
theorem c4_amended_auth_failure (auth_header : Option String) (body : Json)
    (w : World)
    (tipo cnpj_contribuinte id_sistema id_servico versao_sistema dados cid cs : Json)
    (h : ValidRun auth_header body w tipo cnpj_contribuinte id_sistema
      id_servico versao_sistema dados cid cs) :
    (∀ (s : Nat) (b : PyResult Json), w.authOutcome = .resp s b → s ≠ 200 →
      api_handler auth_header body w
        = (⟨500, .obj [("error", .str ("Authentication failed: "
            ++ ("Authentication failed with status code: " ++ toString s)))]⟩,
           [.authCall]))
    ∧ (∀ e : String, w.authOutcome = .exn e → e ≠ "" →
      api_handler auth_header body w
        = (⟨500, .obj [("error", .str ("Authentication failed: " ++ e))]⟩,
           [.authCall])) := by
  constructor
  · intro s b hw hs
    exact hl_auth_fail auth_header body w tipo cnpj_contribuinte id_sistema
      id_servico versao_sistema dados cid cs _ h
      (get_auth_token_non200 cid cs w s b hw hs)
      (str_append_ne_empty _ _ (by decide))
  · intro e hw he
    exact hl_auth_fail auth_header body w tipo cnpj_contribuinte id_sistema
      id_servico versao_sistema dados cid cs e h
      (get_auth_token_exn cid cs w e hw) he

/-- C1 counterexample: when the operation endpoint answers 400 with
`{"mensagens":[{"texto":"CNPJ inválido"}]}`, the handler returns HTTP 200
with success=true and the full payload as data - not success=false with
statusCode 400 and error "CNPJ inválido" as the claim requires. -/
theorem c1_counterexample :
    (api_handler goodAuthHeader goodBody upstream400World).1.status = 200
    ∧ responseField (api_handler goodAuthHeader goodBody upstream400World).1 "success"
        = some (.bool true)
    ∧ responseField (api_handler goodAuthHeader goodBody upstream400World).1 "data"
        = some mensagensBody
    ∧ responseField (api_handler goodAuthHeader goodBody upstream400World).1 "error" = none
    ∧ (200 : Nat) ≠ 400 :=
  ⟨rfl, rfl, rfl, rfl, by decide⟩

/-- C1 (amended): for every validated, authenticated request with a mapped
operation kind, a completed upstream call with a JSON-parseable body
yields success=true, data = the parsed body, and HTTP 200, whatever the
upstream status code; the upstream status and any `mensagens` payload are
never inspected. -/
theorem c1_amended_upstream_passthrough (auth_header : Option String)
    (body : Json) (w : World)
    (tipo cnpj_contribuinte id_sistema id_servico versao_sistema dados
     cid cs ccontr ab atk jtk d : Json) (url : String) (s : Nat)
    (h : ValidRun auth_header body w tipo cnpj_contribuinte id_sistema
      id_servico versao_sistema dados cid cs)
    (ha : AuthOk w ab atk jtk)
    (hccontr : (load_config w.fsConfig).pyIndex "cnpj_contratante" = .ok ccontr)
    (hurl : tipoUrl tipo = .ok (some url))
    (hop : w.opOutcome = .resp s (.ok d)) :
    api_handler auth_header body w
      = (⟨200, .obj [("success", .bool true), ("data", d),
           ("execution_time", .num w.elapsed)]⟩,
         [.authCall, .opCall url (request_headers ⟨atk, jtk⟩)
           (json_data ccontr cnpj_contribuinte id_sistema id_servico
             versao_sistema dados)]) :=
  hl_upstream_ok auth_header body w tipo cnpj_contribuinte id_sistema
    id_servico versao_sistema dados cid cs ccontr atk jtk d url s h
    (get_auth_token_ok cid cs w ab atk jtk ha) hccontr hurl hop

/-- Witness for the amended C1 at a concrete input: an upstream 400 with a
`mensagens` payload is passed through as a 200 success envelope. -/
theorem c1_amended_witness :
    upstream400World.opOutcome = .resp 400 (.ok mensagensBody)
    ∧ api_handler goodAuthHeader goodBody upstream400World
        = (⟨200, .obj [("success", .bool true), ("data", mensagensBody),
             ("execution_time", .num 0)]⟩,
           [.authCall,
            .opCall "https://gateway.apiserpro.serpro.gov.br/integra-contador/v1/Consultar"
              (request_headers ⟨.str "tok", .str "jwt"⟩)
              (json_data (.str "") (.str "12345678000199") (.str "PGDASD")
                (.str "TRANSDECLARACAO11") (.str "1.0") (.str "d"))]) :=
  ⟨rfl, c1_amended_upstream_passthrough goodAuthHeader goodBody upstream400World
    (.str "consultar") (.str "12345678000199") (.str "PGDASD")
    (.str "TRANSDECLARACAO11") (.str "1.0") (.str "d") (.str "") (.str "")
    (.str "") okAuthBody (.str "tok") (.str "jwt") mensagensBody
    "https://gateway.apiserpro.serpro.gov.br/integra-contador/v1/Consultar" 400
    ⟨rfl, rfl, rfl, rfl, rfl, rfl, rfl, rfl, rfl, rfl, rfl⟩
    ⟨rfl, rfl, rfl⟩ rfl rfl rfl⟩

/-- C3 counterexample: a transport exception on the forward call ("
Connection refused") is answered HTTP 400 carrying the exception text -
not 500 with "Failed to connect to the API" as the claim requires. -/
theorem c3_counterexample :
    (api_handler goodAuthHeader goodBody transportWorld).1
      = ⟨400, .obj [("error", .str "Connection refused")]⟩
    ∧ (400 : Nat) ≠ 500
    ∧ "Connection refused" ≠ "Failed to connect to the API" :=
  ⟨rfl, by decide, by decide⟩

/-- C3 (amended): for every validated, authenticated request with a mapped
operation kind, a transport error or timeout on the forward call with
nonempty exception text yields HTTP 400 whose error is the exception text
(no success field); only when the exception text is empty does the
handler answer 500 with "Failed to connect to the API". -/
theorem c3_amended_route_error (auth_header : Option String) (body : Json)
    (w : World)
    (tipo cnpj_contribuinte id_sistema id_servico versao_sistema dados
     cid cs ccontr ab atk jtk : Json) (url m : String)
    (h : ValidRun auth_header body w tipo cnpj_contribuinte id_sistema
      id_servico versao_sistema dados cid cs)
    (ha : AuthOk w ab atk jtk)
    (hccontr : (load_config w.fsConfig).pyIndex "cnpj_contratante" = .ok ccontr)
    (hurl : tipoUrl tipo = .ok (some url))
    (hop : w.opOutcome = .exn m) :
    (m ≠ "" →
      api_handler auth_header body w
        = (⟨400, .obj [("error", .str m)]⟩,
           [.authCall, .opCall url (request_headers ⟨atk, jtk⟩)
             (json_data ccontr cnpj_contribuinte id_sistema id_servico
               versao_sistema dados)]))
    ∧ (m = "" →
      api_handler auth_header body w
        = (⟨500, .obj [("error", .str "Failed to connect to the API")]⟩,
           [.authCall, .opCall url (request_headers ⟨atk, jtk⟩)
             (json_data ccontr cnpj_contribuinte id_sistema id_servico
               versao_sistema dados)])) := by
  constructor
  · intro hm
    exact hl_route_exn auth_header body w tipo cnpj_contribuinte id_sistema
      id_servico versao_sistema dados cid cs ccontr atk jtk url m h
      (get_auth_token_ok cid cs w ab atk jtk ha) hccontr hurl hop hm
  · intro hm
    subst hm
    exact hl_route_exn_empty auth_header body w tipo cnpj_contribuinte
      id_sistema id_servico versao_sistema dados cid cs ccontr atk jtk url h
      (get_auth_token_ok cid cs w ab atk jtk ha) hccontr hurl hop

/-- Witness for the amended C3 at a concrete input: a nonempty transport
exception yields 400 with the exception text. -/
theorem c3_amended_witness :
    transportWorld.opOutcome = .exn "Connection refused"
    ∧ api_handler goodAuthHeader goodBody transportWorld
        = (⟨400, .obj [("error", .str "Connection refused")]⟩,
           [.authCall,
            .opCall "https://gateway.apiserpro.serpro.gov.br/integra-contador/v1/Consultar"
              (request_headers ⟨.str "tok", .str "jwt"⟩)
              (json_data (.str "") (.str "12345678000199") (.str "PGDASD")
                (.str "TRANSDECLARACAO11") (.str "1.0") (.str "d"))]) :=
  ⟨rfl, (c3_amended_route_error goodAuthHeader goodBody transportWorld
    (.str "consultar") (.str "12345678000199") (.str "PGDASD")
    (.str "TRANSDECLARACAO11") (.str "1.0") (.str "d") (.str "") (.str "")
    (.str "") okAuthBody (.str "tok") (.str "jwt")
    "https://gateway.apiserpro.serpro.gov.br/integra-contador/v1/Consultar"
    "Connection refused"
    ⟨rfl, rfl, rfl, rfl, rfl, rfl, rfl, rfl, rfl, rfl, rfl⟩
    ⟨rfl, rfl, rfl⟩ rfl rfl rfl).1 (by decide)⟩

/-- For every validated, authenticated request with a mapped operation
kind, the forward call is attempted (it appears in the trace) and the
resulting status is never 501, whatever the upstream outcome. -/
theorem hl_forward_cases (auth_header : Option String) (body : Json)
    (w : World)
    (tipo cnpj_contribuinte id_sistema id_servico versao_sistema dados
     cid cs ccontr atk jtk : Json) (url : String)
    (h : ValidRun auth_header body w tipo cnpj_contribuinte id_sistema
      id_servico versao_sistema dados cid cs)
    (hga : get_auth_token cid cs w = ((some ⟨atk, jtk⟩, none), [.authCall]))
    (hccontr : (load_config w.fsConfig).pyIndex "cnpj_contratante" = .ok ccontr)
    (hurl : tipoUrl tipo = .ok (some url)) :
    (api_handler auth_header body w).2
      = [.authCall, .opCall url (request_headers ⟨atk, jtk⟩)
          (json_data ccontr cnpj_contribuinte id_sistema id_servico
            versao_sistema dados)]
    ∧ (api_handler auth_header body w).1.status ≠ 501 := by
  rcases hop : w.opOutcome with m | ⟨s, jb⟩
  · by_cases hm : m = ""
    · subst hm
      rw [hl_route_exn_empty auth_header body w tipo cnpj_contribuinte
        id_sistema id_servico versao_sistema dados cid cs ccontr atk jtk url h
        hga hccontr hurl hop]
      exact ⟨rfl, by simp⟩
    · rw [hl_route_exn auth_header body w tipo cnpj_contribuinte id_sistema
        id_servico versao_sistema dados cid cs ccontr atk jtk url m h hga
        hccontr hurl hop hm]
      exact ⟨rfl, by simp⟩
  · rcases jb with d | m
    · rw [hl_upstream_ok auth_header body w tipo cnpj_contribuinte id_sistema
        id_servico versao_sistema dados cid cs ccontr atk jtk d url s h hga
        hccontr hurl hop]
      exact ⟨rfl, by simp⟩
    · rw [hl_upstream_badjson auth_header body w tipo cnpj_contribuinte
        id_sistema id_servico versao_sistema dados cid cs ccontr atk jtk url m
        s h hga hccontr hurl hop]
      exact ⟨rfl, by simp⟩

/-- C2 counterexample: a request with operation kind `emitir` DOES trigger
an outbound call to the Emitir operation endpoint (it appears in the
trace), and the result is the ordinary upstream passthrough (here 200),
not a distinguishable 501 NotImplemented result. -/
theorem c2_counterexample :
    (api_handler goodAuthHeader emitirBody baseWorld).2
      = [.authCall,
         .opCall "https://gateway.apiserpro.serpro.gov.br/integra-contador/v1/Emitir"
           (request_headers ⟨.str "tok", .str "jwt"⟩)
           (json_data (.str "") (.str "12345678000199") (.str "PGDASD")
             (.str "TRANSDECLARACAO11") (.str "1.0") (.str "d"))]
    ∧ (api_handler goodAuthHeader emitirBody baseWorld).1.status = 200
    ∧ (200 : Nat) ≠ 501 :=
  ⟨rfl, rfl, by decide⟩

/-- C2 (amended): for every validated, authenticated request with
operation kind `emitir` or `declarar`, an outbound call to the
corresponding operation endpoint does occur, and the result is the same
upstream passthrough as for `consultar` - its status is never 501; no
NotImplemented result exists in the code. -/
theorem c2_amended_forwarding (auth_header : Option String) (body : Json)
    (w : World)
    (tipo cnpj_contribuinte id_sistema id_servico versao_sistema dados
     cid cs ccontr ab atk jtk : Json)
    (h : ValidRun auth_header body w tipo cnpj_contribuinte id_sistema
      id_servico versao_sistema dados cid cs)
    (ha : AuthOk w ab atk jtk)
    (hccontr : (load_config w.fsConfig).pyIndex "cnpj_contratante" = .ok ccontr) :
    (tipo = Json.str "emitir" →
      (api_handler auth_header body w).2
        = [.authCall,
           .opCall "https://gateway.apiserpro.serpro.gov.br/integra-contador/v1/Emitir"
             (request_headers ⟨atk, jtk⟩)
             (json_data ccontr cnpj_contribuinte id_sistema id_servico
               versao_sistema dados)]
      ∧ (api_handler auth_header body w).1.status ≠ 501)
    ∧ (tipo = Json.str "declarar" →
      (api_handler auth_header body w).2
        = [.authCall,
           .opCall "https://gateway.apiserpro.serpro.gov.br/integra-contador/v1/Declarar"
             (request_headers ⟨atk, jtk⟩)
             (json_data ccontr cnpj_contribuinte id_sistema id_servico
               versao_sistema dados)]
      ∧ (api_handler auth_header body w).1.status ≠ 501) := by
  constructor
  · intro ht
    subst ht
    exact hl_forward_cases auth_header body w _ cnpj_contribuinte id_sistema
      id_servico versao_sistema dados cid cs ccontr atk jtk _ h
      (get_auth_token_ok cid cs w ab atk jtk ha) hccontr rfl
  · intro ht
    subst ht
    exact hl_forward_cases auth_header body w _ cnpj_contribuinte id_sistema
      id_servico versao_sistema dados cid cs ccontr atk jtk _ h
      (get_auth_token_ok cid cs w ab atk jtk ha) hccontr rfl

/-- Witness for the amended C2 at a concrete input: kind `emitir` is
forwarded to the Emitir endpoint and the status is 200, not 501. -/
theorem c2_amended_witness :
    emitirBody.pyGet "tipo" = .ok (.str "emitir")
    ∧ ((api_handler goodAuthHeader emitirBody baseWorld).2
        = [.authCall,
           .opCall "https://gateway.apiserpro.serpro.gov.br/integra-contador/v1/Emitir"
             (request_headers ⟨.str "tok", .str "jwt"⟩)
             (json_data (.str "") (.str "12345678000199") (.str "PGDASD")
               (.str "TRANSDECLARACAO11") (.str "1.0") (.str "d"))]
      ∧ (api_handler goodAuthHeader emitirBody baseWorld).1.status ≠ 501) :=
  ⟨rfl, (c2_amended_forwarding goodAuthHeader emitirBody baseWorld
    (.str "emitir") (.str "12345678000199") (.str "PGDASD")
    (.str "TRANSDECLARACAO11") (.str "1.0") (.str "d") (.str "") (.str "")
    (.str "") okAuthBody (.str "tok") (.str "jwt")
    ⟨rfl, rfl, rfl, rfl, rfl, rfl, rfl, rfl, rfl, rfl, rfl⟩
    ⟨rfl, rfl, rfl⟩ rfl).1 rfl⟩

/-- Witness for the amended C4 at a concrete input: identity provider
answering 401 yields 500 with the prefixed message and no forward call. -/
theorem c4_amended_witness :
    authFailWorld.authOutcome = .resp 401 (.ok .null)
    ∧ api_handler goodAuthHeader goodBody authFailWorld
        = (⟨500, .obj [("error",
            .str "Authentication failed: Authentication failed with status code: 401")]⟩,
           [.authCall]) :=
  ⟨rfl, (c4_amended_auth_failure goodAuthHeader goodBody authFailWorld
    (.str "consultar") (.str "12345678000199") (.str "PGDASD")
    (.str "TRANSDECLARACAO11") (.str "1.0") (.str "d") (.str "") (.str "")
    ⟨rfl, rfl, rfl, rfl, rfl, rfl, rfl, rfl, rfl, rfl, rfl⟩).1
    401 (.ok .null) rfl (by decide)⟩

/-- C6: for every validated, authenticated request whose operation kind is
a string outside {consultar, emitir, declarar}, the result is the
invalid-operation error with HTTP status 400, the operation endpoint is
never called (no opCall in the trace), and the status is not 501 - the
invalid-operation result is never conflated with NotImplemented. -/
theorem c6_invalid_operation (auth_header : Option String) (body : Json)
    (w : World)
    (tipo cnpj_contribuinte id_sistema id_servico versao_sistema dados
     cid cs ccontr ab atk jtk : Json) (t : String)
    (h : ValidRun auth_header body w tipo cnpj_contribuinte id_sistema
      id_servico versao_sistema dados cid cs)
    (ha : AuthOk w ab atk jtk)
    (hccontr : (load_config w.fsConfig).pyIndex "cnpj_contratante" = .ok ccontr)
    (ht : tipo = Json.str t)
    (hnot : t ∉ ["consultar", "emitir", "declarar"]) :
    api_handler auth_header body w
      = (⟨400, .obj [("error", .str ("Invalid operation type: " ++ t))]⟩,
         [.authCall])
    ∧ (∀ (u : String) (hh bb : Json),
        Call.opCall u hh bb ∉ (api_handler auth_header body w).2)
    ∧ (api_handler auth_header body w).1.status ≠ 501 := by
  subst ht
  simp only [List.mem_cons, List.not_mem_nil, or_false, not_or] at hnot
  obtain ⟨hc, he, hd⟩ := hnot
  have hurl0 : tipoUrl (Json.str t) = .ok none := by
    simp [tipoUrl, url_map, lookupStr, Ne.symm hc, Ne.symm he, Ne.symm hd]
  have heq := hl_invalid_op auth_header body w (Json.str t) cnpj_contribuinte
    id_sistema id_servico versao_sistema dados cid cs ccontr atk jtk h
    (get_auth_token_ok cid cs w ab atk jtk ha) hccontr hurl0
  refine ⟨?_, ?_, ?_⟩
  · simpa [Json.pyStr] using heq
  · intro u hh bb
    rw [heq]
    simp
  · rw [heq]
    simp

/-- Witness for C6 at a concrete input: the unknown kind `cancelar` is
answered 400 with the invalid-operation message and only the
authentication call in the trace. -/
theorem c6_witness :
    "cancelar" ∉ ["consultar", "emitir", "declarar"]
    ∧ api_handler goodAuthHeader c6Body baseWorld
        = (⟨400, .obj [("error", .str "Invalid operation type: cancelar")]⟩,
           [.authCall]) :=
  ⟨by decide, (c6_invalid_operation goodAuthHeader c6Body baseWorld
    (.str "cancelar") (.str "12345678000199") (.str "PGDASD") (.str "X")
    (.str "1.0") (.str "d") (.str "") (.str "") (.str "") okAuthBody
    (.str "tok") (.str "jwt") "cancelar"
    ⟨rfl, rfl, rfl, rfl, rfl, rfl, rfl, rfl, rfl, rfl, rfl⟩
    ⟨rfl, rfl, rfl⟩ rfl rfl (by decide)).1⟩

/-- C7 counterexample: the 401 token-rejection response carries no
execution-time field at all, though the claim requires every response to
carry one. -/
theorem c7_counterexample :
    (api_handler none goodBody baseWorld).1
      = ⟨401, .obj [("error",
          .str "Authentication failed: Authorization header is missing")]⟩
    ∧ responseField (api_handler none goodBody baseWorld).1 "execution_time" = none :=
  ⟨rfl, rfl⟩

/-- C7 (amended): the `execution_time` stamp is attached only on the
success path and on the raised-exception (unanticipated-fault) path; the
token-rejection (401), falsy-body (400), missing-fields (400),
invalid-operation (400), route-error (both the nonempty-text 400 and the
empty-text 500 "Failed to connect to the API"), and every
authentication-failure response (non-200 identity-provider status,
transport exception, undecodable 200 body, and 200 body missing either
token field) carry no execution-time field. -/
theorem c7_amended_execution_time :
    (∀ (auth_header : Option String) (body : Json) (w : World) (m : String),
      validate_token auth_header = (false, some m) →
      responseField (api_handler auth_header body w).1 "execution_time" = none)
    ∧ (∀ (auth_header : Option String) (body : Json) (w : World),
      validate_token auth_header = (true, none) → body.truthy = false →
      responseField (api_handler auth_header body w).1 "execution_time" = none)
    ∧ (∀ (auth_header : Option String) (body : Json) (w : World)
        (tipo cnpj_contribuinte id_sistema id_servico versao_sistema dados : Json),
      validate_token auth_header = (true, none) → body.truthy = true →
      body.pyGet "tipo" = .ok tipo →
      body.pyGet "cnpj" = .ok cnpj_contribuinte →
      body.pyGet "idSistema" = .ok id_sistema →
      body.pyGet "idServico" = .ok id_servico →
      body.pyGet "versaoSistema" = .ok versao_sistema →
      body.pyGet "dados" = .ok dados →
      (tipo.truthy && cnpj_contribuinte.truthy && id_sistema.truthy
        && id_servico.truthy && versao_sistema.truthy && dados.truthy) = false →
      responseField (api_handler auth_header body w).1 "execution_time" = none)
    ∧ (∀ (auth_header : Option String) (body : Json) (w : World)
        (tipo cnpj_contribuinte id_sistema id_servico versao_sistema dados
         cid cs : Json) (s : Nat) (rb : PyResult Json),
      ValidRun auth_header body w tipo cnpj_contribuinte id_sistema id_servico
        versao_sistema dados cid cs →
      w.authOutcome = .resp s rb → s ≠ 200 →
      responseField (api_handler auth_header body w).1 "execution_time" = none)
    ∧ (∀ (auth_header : Option String) (body : Json) (w : World)
        (tipo cnpj_contribuinte id_sistema id_servico versao_sistema dados
         cid cs ccontr ab atk jtk : Json) (url m : String),
      ValidRun auth_header body w tipo cnpj_contribuinte id_sistema id_servico
        versao_sistema dados cid cs →
      AuthOk w ab atk jtk →
      (load_config w.fsConfig).pyIndex "cnpj_contratante" = .ok ccontr →
      tipoUrl tipo = .ok (some url) →
      w.opOutcome = .exn m → m ≠ "" →
      responseField (api_handler auth_header body w).1 "execution_time" = none)
    ∧ (∀ (auth_header : Option String) (body : Json) (w : World)
        (tipo cnpj_contribuinte id_sistema id_servico versao_sistema dados
         cid cs ccontr ab atk jtk d : Json) (url : String) (s : Nat),
      ValidRun auth_header body w tipo cnpj_contribuinte id_sistema id_servico
        versao_sistema dados cid cs →
      AuthOk w ab atk jtk →
      (load_config w.fsConfig).pyIndex "cnpj_contratante" = .ok ccontr →
      tipoUrl tipo = .ok (some url) →
      w.opOutcome = .resp s (.ok d) →
      responseField (api_handler auth_header body w).1 "execution_time"
        = some (.num w.elapsed))
    ∧ (∀ (auth_header : Option String) (body : Json) (w : World)
        (tipo cnpj_contribuinte id_sistema id_servico versao_sistema dados
         cid cs ccontr ab atk jtk : Json) (url m : String) (s : Nat),
      ValidRun auth_header body w tipo cnpj_contribuinte id_sistema id_servico
        versao_sistema dados cid cs →
      AuthOk w ab atk jtk →
      (load_config w.fsConfig).pyIndex "cnpj_contratante" = .ok ccontr →
      tipoUrl tipo = .ok (some url) →
      w.opOutcome = .resp s (.exn m) →
      responseField (api_handler auth_header body w).1 "execution_time"
        = some (.num w.elapsed))
    ∧ (∀ (auth_header : Option String) (body : Json) (w : World)
        (tipo cnpj_contribuinte id_sistema id_servico versao_sistema dados
         cid cs ccontr ab atk jtk : Json) (url : String),
      ValidRun auth_header body w tipo cnpj_contribuinte id_sistema id_servico
        versao_sistema dados cid cs →
      AuthOk w ab atk jtk →
      (load_config w.fsConfig).pyIndex "cnpj_contratante" = .ok ccontr →
      tipoUrl tipo = .ok (some url) →
      w.opOutcome = .exn "" →
      responseField (api_handler auth_header body w).1 "execution_time" = none)
    ∧ (∀ (auth_header : Option String) (body : Json) (w : World)
        (tipo cnpj_contribuinte id_sistema id_servico versao_sistema dados
         cid cs ccontr ab atk jtk : Json),
      ValidRun auth_header body w tipo cnpj_contribuinte id_sistema id_servico
        versao_sistema dados cid cs →
      AuthOk w ab atk jtk →
      (load_config w.fsConfig).pyIndex "cnpj_contratante" = .ok ccontr →
      tipoUrl tipo = .ok none →
      responseField (api_handler auth_header body w).1 "execution_time" = none)
    ∧ (∀ (auth_header : Option String) (body : Json) (w : World)
        (tipo cnpj_contribuinte id_sistema id_servico versao_sistema dados
         cid cs : Json) (e : String),
      ValidRun auth_header body w tipo cnpj_contribuinte id_sistema id_servico
        versao_sistema dados cid cs →
      w.authOutcome = .exn e → e ≠ "" →
      responseField (api_handler auth_header body w).1 "execution_time" = none)
    ∧ (∀ (auth_header : Option String) (body : Json) (w : World)
        (tipo cnpj_contribuinte id_sistema id_servico versao_sistema dados
         cid cs : Json) (e : String),
      ValidRun auth_header body w tipo cnpj_contribuinte id_sistema id_servico
        versao_sistema dados cid cs →
      w.authOutcome = .resp 200 (.exn e) → e ≠ "" →
      responseField (api_handler auth_header body w).1 "execution_time" = none)
    ∧ (∀ (auth_header : Option String) (body : Json) (w : World)
        (tipo cnpj_contribuinte id_sistema id_servico versao_sistema dados
         cid cs ab : Json) (e : String),
      ValidRun auth_header body w tipo cnpj_contribuinte id_sistema id_servico
        versao_sistema dados cid cs →
      w.authOutcome = .resp 200 (.ok ab) →
      ab.pyIndex "access_token" = .exn e →
      responseField (api_handler auth_header body w).1 "execution_time" = none)
    ∧ (∀ (auth_header : Option String) (body : Json) (w : World)
        (tipo cnpj_contribuinte id_sistema id_servico versao_sistema dados
         cid cs ab atk : Json) (e : String),
      ValidRun auth_header body w tipo cnpj_contribuinte id_sistema id_servico
        versao_sistema dados cid cs →
      w.authOutcome = .resp 200 (.ok ab) →
      ab.pyIndex "access_token" = .ok atk →
      ab.pyIndex "jwt_token" = .exn e →
      responseField (api_handler auth_header body w).1 "execution_time" = none) := by
  refine ⟨?_, ?_, ?_, ?_, ?_, ?_, ?_, ?_, ?_, ?_, ?_, ?_, ?_⟩
  · intro auth_header body w m hv
    rw [hl_token_fail auth_header body w m hv]
    rfl
  · intro auth_header body w hv hbf
    rw [hl_no_data auth_header body w hv hbf]
    rfl
  · intro auth_header body w tipo cnpj_contribuinte id_sistema id_servico
      versao_sistema dados hv hbt h1 h2 h3 h4 h5 h6 hall
    rw [hl_missing auth_header body w tipo cnpj_contribuinte id_sistema
      id_servico versao_sistema dados hv hbt h1 h2 h3 h4 h5 h6 hall]
    rfl
  · intro auth_header body w tipo cnpj_contribuinte id_sistema id_servico
      versao_sistema dados cid cs s rb hvr hw hs
    rw [hl_auth_fail auth_header body w tipo cnpj_contribuinte id_sistema
      id_servico versao_sistema dados cid cs _ hvr
      (get_auth_token_non200 cid cs w s rb hw hs)
      (str_append_ne_empty _ _ (by decide))]
    rfl
  · intro auth_header body w tipo cnpj_contribuinte id_sistema id_servico
      versao_sistema dados cid cs ccontr ab atk jtk url m hvr ha hccontr hurl
      hop hm
    rw [hl_route_exn auth_header body w tipo cnpj_contribuinte id_sistema
      id_servico versao_sistema dados cid cs ccontr atk jtk url m hvr
      (get_auth_token_ok cid cs w ab atk jtk ha) hccontr hurl hop hm]
    rfl
  · intro auth_header body w tipo cnpj_contribuinte id_sistema id_servico
      versao_sistema dados cid cs ccontr ab atk jtk d url s hvr ha hccontr
      hurl hop
    rw [hl_upstream_ok auth_header body w tipo cnpj_contribuinte id_sistema
      id_servico versao_sistema dados cid cs ccontr atk jtk d url s hvr
      (get_auth_token_ok cid cs w ab atk jtk ha) hccontr hurl hop]
    rfl
  · intro auth_header body w tipo cnpj_contribuinte id_sistema id_servico
      versao_sistema dados cid cs ccontr ab atk jtk url m s hvr ha hccontr
      hurl hop
    rw [hl_upstream_badjson auth_header body w tipo cnpj_contribuinte
      id_sistema id_servico versao_sistema dados cid cs ccontr atk jtk url m s
      hvr (get_auth_token_ok cid cs w ab atk jtk ha) hccontr hurl hop]
    rfl
  · intro auth_header body w tipo cnpj_contribuinte id_sistema id_servico
      versao_sistema dados cid cs ccontr ab atk jtk url hvr ha hccontr hurl hop
    rw [hl_route_exn_empty auth_header body w tipo cnpj_contribuinte
      id_sistema id_servico versao_sistema dados cid cs ccontr atk jtk url hvr
      (get_auth_token_ok cid cs w ab atk jtk ha) hccontr hurl hop]
    rfl
  · intro auth_header body w tipo cnpj_contribuinte id_sistema id_servico
      versao_sistema dados cid cs ccontr ab atk jtk hvr ha hccontr hurl0
    rw [hl_invalid_op auth_header body w tipo cnpj_contribuinte id_sistema
      id_servico versao_sistema dados cid cs ccontr atk jtk hvr
      (get_auth_token_ok cid cs w ab atk jtk ha) hccontr hurl0]
    rfl
  · intro auth_header body w tipo cnpj_contribuinte id_sistema id_servico
      versao_sistema dados cid cs e hvr hw he
    rw [hl_auth_fail auth_header body w tipo cnpj_contribuinte id_sistema
      id_servico versao_sistema dados cid cs e hvr
      (get_auth_token_exn cid cs w e hw) he]
    rfl
  · intro auth_header body w tipo cnpj_contribuinte id_sistema id_servico
      versao_sistema dados cid cs e hvr hw he
    rw [hl_auth_fail auth_header body w tipo cnpj_contribuinte id_sistema
      id_servico versao_sistema dados cid cs e hvr
      (get_auth_token_badjson cid cs w e hw) he]
    rfl
  · intro auth_header body w tipo cnpj_contribuinte id_sistema id_servico
      versao_sistema dados cid cs ab e hvr hw hx
    rw [hl_auth_fail auth_header body w tipo cnpj_contribuinte id_sistema
      id_servico versao_sistema dados cid cs e hvr
      (get_auth_token_missing_access cid cs w ab e hw hx)
      (pyIndex_exn_ne_empty ab "access_token" e hx)]
    rfl
  · intro auth_header body w tipo cnpj_contribuinte id_sistema id_servico
      versao_sistema dados cid cs ab atk e hvr hw hx hy
    rw [hl_auth_fail auth_header body w tipo cnpj_contribuinte id_sistema
      id_servico versao_sistema dados cid cs e hvr
      (get_auth_token_missing_jwt cid cs w ab atk e hw hx hy)
      (pyIndex_exn_ne_empty ab "jwt_token" e hy)]
    rfl

/-- Witness for the amended C7 at concrete inputs: the token-rejection
response and the invalid-operation response carry no execution-time
field, while the success response carries one. -/
theorem c7_amended_witness :
    validate_token none = (false, some "Authorization header is missing")
    ∧ responseField (api_handler none goodBody baseWorld).1 "execution_time" = none
    ∧ responseField (api_handler goodAuthHeader c6Body baseWorld).1 "execution_time" = none
    ∧ responseField (api_handler goodAuthHeader goodBody baseWorld).1 "execution_time"
        = some (.num 0) := by
  refine ⟨rfl, c7_amended_execution_time.1 none goodBody baseWorld _ rfl, ?_, ?_⟩
  · exact c7_amended_execution_time.2.2.2.2.2.2.2.2.1 goodAuthHeader c6Body
      baseWorld (.str "cancelar") (.str "12345678000199") (.str "PGDASD")
      (.str "X") (.str "1.0") (.str "d") (.str "") (.str "") (.str "")
      okAuthBody (.str "tok") (.str "jwt")
      ⟨rfl, rfl, rfl, rfl, rfl, rfl, rfl, rfl, rfl, rfl, rfl⟩
      ⟨rfl, rfl, rfl⟩ rfl rfl
  · exact c7_amended_execution_time.2.2.2.2.2.1 goodAuthHeader goodBody baseWorld
      (.str "consultar") (.str "12345678000199") (.str "PGDASD")
      (.str "TRANSDECLARACAO11") (.str "1.0") (.str "d") (.str "") (.str "")
      (.str "") okAuthBody (.str "tok") (.str "jwt") (.obj [("foo", .str "bar")])
      "https://gateway.apiserpro.serpro.gov.br/integra-contador/v1/Consultar" 200
      ⟨rfl, rfl, rfl, rfl, rfl, rfl, rfl, rfl, rfl, rfl, rfl⟩
      ⟨rfl, rfl, rfl⟩ rfl rfl rfl

end ApiPgdas
